import Mathlib

/-!
Formal model of the `runner` concurrent task runner (src/main.rs).

The program deserializes `runner.json` into a `Runner` record holding two
optional task groups (`tasks` and `builds`), wraps it into an
`InternalRunner` (`Runner::init`), and on the `run`/`r`/`build` subcommands
executes one group as a batch: `run_all`/`build_all` spawn one concurrent
unit per task into a `JoinSet`, in input order, and then drain the set, so
the batch call returns only after every unit has finished.

Each unit (the closure spawned by `InternalRunner::run_task`) loops:
sleep 1000 ms, then race `cancellation_token.cancelled()` against
`run_task_inner(task)` in a `tokio::select!`.  Both select arms `break`,
so the loop body runs exactly once and each unit produces exactly one
result.  `run_task_inner` builds
`Command::new("sh").arg("-c").arg(cmd).kill_on_drop(true)`, calls
`.spawn()` — dropping the returned `Child` at the end of the statement,
which kills that first subshell because `kill_on_drop(true)` is set —
prints a banner, and then calls `cmd.output().await`, which spawns the
subshell a second time and waits for its exit status.  Both `.spawn()` and
`.output().await` are followed by `.expect(..)`, so a failure to start the
subshell panics the unit (the panic is swallowed by the `JoinSet` drain,
which ignores join errors).  When the cancelled branch wins the select,
the losing `run_task_inner` future is dropped; if the second subshell was
already in flight inside `output()`, dropping its `Child` kills it
(`kill_on_drop(true)`).

The model below makes the scheduling nondeterminism explicit through a
per-unit environment `UnitEnv`:

* `preCancelled` — the token is already cancelled when this unit's select
  begins (after its sleep);
* `innerPolledFirst` — with a pre-cancelled token, whether the select
  polls the `run_task_inner` branch before the already-ready cancelled
  branch (tokio polls branches in random order; if the inner branch is
  polled, its synchronous prefix runs and spawns before cancellation wins);
* `cancelBeforeDone` — the token is cancelled after the race begins but
  before the command completes (so the cancelled branch resolves first);
* `spawn1Ok` / `spawn2Ok` — whether the first `.spawn()` and the spawn
  inside `.output()` succeed (failure hits `.expect`, a panic);
* `exitSuccess`, `stdout`, `stderr` — the exit status and captured
  streams of the command when it runs to completion.

A unit's observable behaviour is an optional terminal `Outcome` (`none`
models a panicked unit, which produces no outcome at all) together with a
trace of `Event`s (sleeping, handing the command string to a subshell,
killing a subshell via `kill_on_drop`, and printed lines).
-/

namespace RunnerModel

/-- One task definition from the configuration file: a reporting name and
an opaque command string handed verbatim to `sh -c`. -/
structure Task where
  name : String
  cmd : String
deriving DecidableEq

/-- Terminal outcome of one unit, as the spec models the observable
behaviour of `run_task` / `run_task_inner`: the success print path, the
failure print path, or the cancelled print path. -/
inductive Outcome where
  | Succeeded (stdout : String)
  | Failed (stderr : String)
  | Cancelled
deriving DecidableEq

/-- Observable events of one unit, in order: the fixed sleep, each time a
command string is handed to a subshell (`spawn()` or `output()`), each
time a live subshell is killed by `kill_on_drop` when its `Child` is
dropped, and each printed line. -/
inductive Event where
  | sleep (ms : Nat)
  | spawned (cmd : String)
  | killedOnDrop (cmd : String)
  | printed (line : String)
deriving DecidableEq

/-- Scheduling environment for one unit: resolves every nondeterministic
choice the tokio runtime and the operating system make for that unit. -/
structure UnitEnv where
  preCancelled : Bool
  innerPolledFirst : Bool
  cancelBeforeDone : Bool
  spawn1Ok : Bool
  spawn2Ok : Bool
  exitSuccess : Bool
  stdout : String
  stderr : String
deriving DecidableEq

/-- Behaviour of the unit spawned by `InternalRunner::run_task` for one
task under a given scheduling environment.  The result is the unit's
terminal outcome (`none` models a panic via `.expect`, which yields no
outcome) and its event trace.  The branches mirror the source:

* sleep 1000 ms first, always;
* if the token is already cancelled and the select polls the cancelled
  branch first, the inner future is dropped unpolled: outcome `Cancelled`;
* otherwise `run_task_inner` is polled: its synchronous prefix runs —
  first `spawn()` (panic if it fails; otherwise the `Child` is dropped at
  once and the first subshell is killed), the banner print, then the spawn
  inside `output()` (panic if it fails);
* if cancellation resolves before the command completes, the select drops
  the in-flight `output()` future, killing the second subshell, and the
  unit reports `Cancelled`;
* otherwise the command's exit status decides `Succeeded`/`Failed`. -/
def runUnit (t : Task) (env : UnitEnv) : Option Outcome × List Event :=
  if env.preCancelled && !env.innerPolledFirst then
    (some Outcome.Cancelled,
      [Event.sleep 1000, Event.printed ("Task cancelled " ++ t.name)])
  else if !env.spawn1Ok then
    (none, [Event.sleep 1000])
  else if !env.spawn2Ok then
    (none,
      [Event.sleep 1000, Event.spawned t.cmd, Event.killedOnDrop t.cmd,
       Event.printed ("Running task: \"" ++ t.name ++ "\"")])
  else if env.preCancelled || env.cancelBeforeDone then
    (some Outcome.Cancelled,
      [Event.sleep 1000, Event.spawned t.cmd, Event.killedOnDrop t.cmd,
       Event.printed ("Running task: \"" ++ t.name ++ "\""),
       Event.spawned t.cmd, Event.killedOnDrop t.cmd,
       Event.printed ("Task cancelled " ++ t.name)])
  else if env.exitSuccess then
    (some (Outcome.Succeeded env.stdout),
      [Event.sleep 1000, Event.spawned t.cmd, Event.killedOnDrop t.cmd,
       Event.printed ("Running task: \"" ++ t.name ++ "\""),
       Event.spawned t.cmd,
       Event.printed ("Task: \"" ++ t.name ++ "\" succeeded"),
       Event.printed ("Task succeeded"),
       Event.printed ("Output: " ++ env.stdout)])
  else
    (some (Outcome.Failed env.stderr),
      [Event.sleep 1000, Event.spawned t.cmd, Event.killedOnDrop t.cmd,
       Event.printed ("Running task: \"" ++ t.name ++ "\""),
       Event.spawned t.cmd,
       Event.printed ("Task \"" ++ t.name ++ "\" failed"),
       Event.printed ("Stderr: " ++ env.stderr)])

/-- Predicate selecting the events where a command string is handed to a
subshell. -/
def Event.isSpawned : Event → Bool
  | Event.spawned _ => true
  | _ => false

/-- Number of times a trace hands a command string to a subshell. -/
def shellInvocations (evs : List Event) : Nat :=
  (evs.filter Event.isSpawned).length

/-- Deserialized configuration file (`struct Runner`): two optional task
groups. -/
structure Runner where
  tasks : Option (List Task)
  builds : Option (List Task)
deriving DecidableEq

/-- In-memory runner (`struct InternalRunner`): the same two optional
groups.  The `Arc<Mutex<..>>` wrappers in the source are a formality (the
groups are never mutated after load) and are not modelled. -/
structure InternalRunner where
  tasks : Option (List Task)
  builds : Option (List Task)
deriving DecidableEq

/-- Model of `Runner::init`: `loaded` is the result of `init_runner`
(`none` models a missing, unreadable, or unparsable `runner.json`).  On
success the groups are wrapped unchanged; on failure the error string from
the source is returned. -/
def Runner.init (loaded : Option Runner) : Except String InternalRunner :=
  match loaded with
  | some r => Except.ok ⟨r.tasks, r.builds⟩
  | none => Except.error ("Failed to initialize runner")

/-- The spawn phase of `run_all`/`build_all`: one unit is pushed into the
`JoinSet` per task, in input order; `set.spawn` never waits for a previous
unit, so the spawned list is exactly the input list. -/
def spawnAll (tasks : List Task) : List Task := tasks

/-- The join phase: draining the `JoinSet` collects every unit's result;
the batch call returns only once this list is complete.  Unit `i` runs
task `i` under its own scheduling environment `env i`, independently of
every other unit. -/
def joinAll : List Task → (Nat → UnitEnv) → List (Option Outcome × List Event)
  | [], _ => []
  | t :: ts, env => runUnit t (env 0) :: joinAll ts (fun i => env (i + 1))

/-- Model of `InternalRunner::run_all`: execute the `tasks` group (absent
group means no unit is spawned), then join every unit. -/
def InternalRunner.run_all (r : InternalRunner) (env : Nat → UnitEnv) :
    List (Option Outcome × List Event) :=
  joinAll (spawnAll (r.tasks.getD [])) env

/-- Model of `InternalRunner::build_all`: identical to `run_all` but over
the `builds` group. -/
def InternalRunner.build_all (r : InternalRunner) (env : Nat → UnitEnv) :
    List (Option Outcome × List Event) :=
  joinAll (spawnAll (r.builds.getD [])) env

/-- Operations the program performs on the shared `CancellationToken`:
`cancel` (the ctrl-c handler, or the no-op safety `cancel` after the
join) and `observe` (a unit awaiting `cancelled()`). -/
inductive TokenOp where
  | cancel
  | observe
deriving DecidableEq

/-- Effect of one token operation on the token state (`true` =
cancelled).  `cancel` sets the flag; `observe` reads it and leaves it
unchanged; no operation ever clears it. -/
def tokenStep (s : Bool) : TokenOp → Bool
  | TokenOp.cancel => true
  | TokenOp.observe => s

/-- Token state after a sequence of operations. -/
def tokenRun (s : Bool) : List TokenOp → Bool
  | [] => s
  | op :: ops => tokenRun (tokenStep s op) ops

/-- The only token operation a unit ever performs: awaiting
`cancelled()` in the select (the unit never calls `cancel`). -/
def unitTokenOps : List TokenOp := [TokenOp.observe]

/-- CLI subcommands (`enum Commands`). -/
inductive Commands where
  | Run
  | R
  | Build
deriving DecidableEq

/-- Observable top-level actions of `main`. -/
inductive MainAction where
  | printedVersion
  | ranBatch (results : List (Option Outcome × List Event))
  | printedNoCommand

/-- Whether a top-level action is a batch execution. -/
def MainAction.isBatch : MainAction → Bool
  | MainAction.ranBatch _ => true
  | _ => false

/-- Whether a top-level trace contains a batch execution. -/
def batchAttempted (acts : List MainAction) : Bool :=
  acts.any MainAction.isBatch

/-- Model of `main`: if `Runner::init` fails, the `if let Ok(..)` guard
falls through and the process does nothing further (no version banner, no
batch) and exits with status 0; otherwise the version banner is printed
and the subcommand dispatches to `run_all` (for `Run` and `R`) or
`build_all` (for `Build`), or prints the no-command notice.  The process
exit status is 0 in every case. -/
def mainModel (loaded : Option Runner) (cli : Option Commands)
    (env : Nat → UnitEnv) : List MainAction × Nat :=
  match Runner.init loaded with
  | Except.error _ => ([], 0)
  | Except.ok r =>
    match cli with
    | some Commands.R =>
      ([MainAction.printedVersion, MainAction.ranBatch (r.run_all env)], 0)
    | some Commands.Run =>
      ([MainAction.printedVersion, MainAction.ranBatch (r.run_all env)], 0)
    | some Commands.Build =>
      ([MainAction.printedVersion, MainAction.ranBatch (r.build_all env)], 0)
    | none =>
      ([MainAction.printedVersion, MainAction.printedNoCommand], 0)

/-- Lifecycle states of one unit (spec §4.1): `Pending` (spawned into the
`JoinSet`), `Running` (the race between cancellation and the command has
begun), a terminal `Done` outcome, or `Panicked` (an `.expect` fired). -/
inductive UnitState where
  | Pending
  | Running
  | Done (o : Outcome)
  | Panicked
deriving DecidableEq

/-- Transitions of the per-unit state machine as realised by the source:
a unit starts running, and from `Running` reaches exactly one of the
terminal outcomes or panics.  There is no transition out of `Done` or
`Panicked`. -/
inductive UnitStep : UnitState → UnitState → Prop where
  | start : UnitStep UnitState.Pending UnitState.Running
  | cancel : UnitStep UnitState.Running (UnitState.Done Outcome.Cancelled)
  | succeed (out : String) :
      UnitStep UnitState.Running (UnitState.Done (Outcome.Succeeded out))
  | fail (err : String) :
      UnitStep UnitState.Running (UnitState.Done (Outcome.Failed err))
  | crash : UnitStep UnitState.Running UnitState.Panicked

/-- Joining a batch yields exactly one result per spawned unit. -/
theorem joinAll_length (ts : List Task) (env : Nat → UnitEnv) :
    (joinAll ts env).length = ts.length := by
  induction ts generalizing env with
  | nil => rfl
  | cons t ts ih => simp [joinAll, ih]

/-- The `i`-th joined result is the `i`-th task run under its own
environment, independent of every other unit. -/
theorem joinAll_getElem? (ts : List Task) (env : Nat → UnitEnv) (i : Nat) :
    (joinAll ts env)[i]? = Option.map (fun t => runUnit t (env i)) ts[i]? := by
  induction ts generalizing env i with
  | nil => simp [joinAll]
  | cons t ts ih =>
    cases i with
    | zero => simp [joinAll]
    | succ n => simpa [joinAll] using ih (fun k => env (k + 1)) n

/-- A unit whose command runs to completion without cancellation reports
`Succeeded`/`Failed` according to the exit status. -/
theorem runUnit_completed (t : Task) (env : UnitEnv)
    (h1 : env.spawn1Ok = true) (h2 : env.spawn2Ok = true)
    (hp : env.preCancelled = false) (hc : env.cancelBeforeDone = false) :
    (runUnit t env).1 =
      some (if env.exitSuccess then Outcome.Succeeded env.stdout
        else Outcome.Failed env.stderr) := by
  cases hE : env.exitSuccess <;>
    simp [runUnit, h1, h2, hp, hc, hE]

/-- A unit whose race is decided by cancellation — the token already set
when the race begins, or set before the command completes — reports
`Cancelled` (provided the subshell can start, so no `.expect` panic
preempts the select). -/
theorem runUnit_cancelled (t : Task) (env : UnitEnv)
    (h1 : env.spawn1Ok = true) (h2 : env.spawn2Ok = true)
    (h : env.preCancelled = true ∨ env.cancelBeforeDone = true) :
    (runUnit t env).1 = some Outcome.Cancelled := by
  cases hp : env.preCancelled with
  | true =>
    cases hq : env.innerPolledFirst <;> simp [runUnit, h1, h2, hp, hq]
  | false =>
    rcases h with h | h
    · simp [hp] at h
    · simp [runUnit, h1, h2, hp, h]

/-- Once the token is cancelled, every operation leaves it cancelled. -/
theorem tokenStep_true (op : TokenOp) : tokenStep true op = true := by
  cases op <;> rfl

/-- Once the token is cancelled, it stays cancelled under any sequence of
operations the program performs. -/
theorem tokenRun_true (ops : List TokenOp) : tokenRun true ops = true := by
  induction ops with
  | nil => rfl
  | cons op ops ih =>
    simp only [tokenRun]
    rw [tokenStep_true]
    exact ih

/-- C1: with no cancellation triggered and every subshell starting, a
batch call (`run_all` on the `tasks` group, `build_all` on the `builds`
group) spawns one unit per task in input order (`spawnAll` preserves the
input list), returns only after producing exactly one result per task (the
joined list has length N, so no unit outlives the call), and the `i`-th
outcome is `Succeeded`/`Failed` exactly according to the `i`-th task's
command exit status. -/
theorem claim_C1 (tasks : List Task) (benv : Nat → UnitEnv)
    (hok : ∀ i, (benv i).preCancelled = false ∧ (benv i).cancelBeforeDone = false ∧
      (benv i).spawn1Ok = true ∧ (benv i).spawn2Ok = true) :
    spawnAll tasks = tasks ∧
    (InternalRunner.run_all ⟨some tasks, none⟩ benv).length = tasks.length ∧
    (InternalRunner.build_all ⟨none, some tasks⟩ benv).length = tasks.length ∧
    ∀ i t, tasks[i]? = some t →
      Option.map Prod.fst ((InternalRunner.run_all ⟨some tasks, none⟩ benv)[i]?) =
        some (some (if (benv i).exitSuccess then Outcome.Succeeded (benv i).stdout
          else Outcome.Failed (benv i).stderr)) := by
  refine ⟨rfl, joinAll_length tasks benv, joinAll_length tasks benv, ?_⟩
  intro i t ht
  obtain ⟨hp, hc, h1, h2⟩ := hok i
  show Option.map Prod.fst ((joinAll tasks benv)[i]?) = _
  rw [joinAll_getElem?, ht]
  simp [runUnit_completed t (benv i) h1 h2 hp hc]

/-- Instantiation of C1 on the failing task of spec Scenario A. -/
theorem claim_C1_witness :
    Option.map Prod.fst
        ((InternalRunner.run_all ⟨some [⟨"b", "false"⟩], none⟩
          (fun _ => ⟨false, false, false, true, true, false, "", ""⟩))[0]?) =
      some (some (Outcome.Failed "")) := by
  have h := claim_C1 [⟨"b", "false"⟩]
    (fun _ => ⟨false, false, false, true, true, false, "", ""⟩)
    (fun _ => ⟨rfl, rfl, rfl, rfl⟩)
  simpa using h.2.2.2 0 ⟨"b", "false"⟩ rfl

/-- C2: if the shared cancellation signal is triggered before a unit's
command completes — whether already set when the race begins or set while
the command is in flight — that unit reaches `Cancelled`; a unit whose
command completed before the signal resolved keeps the
`Succeeded`/`Failed` outcome derived from its exit status; the token is
level-triggered (`cancel` sets it and once set it stays set under every
subsequent operation) and a unit's only token operation is `observe`,
which never changes the token, so no unit ever clears it. -/
theorem claim_C2 :
    (∀ (t : Task) (env : UnitEnv), env.spawn1Ok = true → env.spawn2Ok = true →
      (env.preCancelled = true ∨ env.cancelBeforeDone = true) →
      (runUnit t env).1 = some Outcome.Cancelled) ∧
    (∀ (t : Task) (env : UnitEnv), env.spawn1Ok = true → env.spawn2Ok = true →
      env.preCancelled = false → env.cancelBeforeDone = false →
      (runUnit t env).1 = some (if env.exitSuccess then Outcome.Succeeded env.stdout
        else Outcome.Failed env.stderr)) ∧
    (∀ (s : Bool), tokenStep s TokenOp.cancel = true) ∧
    (∀ (ops : List TokenOp), tokenRun true ops = true) ∧
    (∀ (s : Bool) (op : TokenOp), op ∈ unitTokenOps → tokenStep s op = s) := by
  refine ⟨fun t env h1 h2 h => runUnit_cancelled t env h1 h2 h,
    fun t env h1 h2 hp hc => runUnit_completed t env h1 h2 hp hc,
    fun s => rfl, tokenRun_true, ?_⟩
  intro s op hop
  have hobs : op = TokenOp.observe := by simpa [unitTokenOps] using hop
  rw [hobs]
  rfl

/-- Instantiation of C2: a pre-cancelled unit reports `Cancelled`. -/
theorem claim_C2_witness :
    (runUnit ⟨"slow", "sleep 5"⟩ ⟨true, false, false, true, true, true, "", ""⟩).1 =
      some Outcome.Cancelled :=
  claim_C2.1 ⟨"slow", "sleep 5"⟩ ⟨true, false, false, true, true, true, "", ""⟩
    rfl rfl (Or.inl rfl)

/-- C3 as stated is false: for a task that runs to completion without
cancellation, the command string is handed to the subshell twice — once
by the immediately dropped `spawn()` and once by `output()` — not exactly
once. -/
theorem claim_C3_counterexample :
    shellInvocations
        (runUnit ⟨"a", "echo hi"⟩ ⟨false, false, false, true, true, true, "hi", ""⟩).2 = 2 ∧
    shellInvocations
        (runUnit ⟨"a", "echo hi"⟩ ⟨false, false, false, true, true, true, "hi", ""⟩).2 ≠ 1 := by
  constructor
  · rfl
  · decide

/-- C3 amended: for every task that runs to completion without
cancellation, `run_task_inner` hands the command string to the subshell
exactly twice — once via `spawn()` (whose `Child` is dropped and the
first subshell killed immediately) and once via `output()`. -/
theorem claim_C3_amended (t : Task) (env : UnitEnv)
    (h1 : env.spawn1Ok = true) (h2 : env.spawn2Ok = true)
    (hp : env.preCancelled = false) (hc : env.cancelBeforeDone = false) :
    shellInvocations (runUnit t env).2 = 2 := by
  cases hE : env.exitSuccess <;>
    simp [runUnit, shellInvocations, Event.isSpawned, h1, h2, hp, hc, hE]

/-- Instantiation of the amended C3 on a concrete completed task. -/
theorem claim_C3_amended_witness :
    shellInvocations
        (runUnit ⟨"a", "true"⟩ ⟨false, false, false, true, true, true, "", ""⟩).2 = 2 :=
  claim_C3_amended ⟨"a", "true"⟩ ⟨false, false, false, true, true, true, "", ""⟩
    rfl rfl rfl rfl

/-- C4 as stated is false: when cancellation resolves while the command is
in flight, the select drops the `output()` future and `kill_on_drop(true)`
kills the running subshell — the trace below ends with the in-flight
subshell (the second `spawned`) being killed, so it is not left to run. -/
theorem claim_C4_counterexample :
    (runUnit ⟨"slow", "sleep 5"⟩ ⟨false, false, true, true, true, true, "", ""⟩).1 =
      some Outcome.Cancelled ∧
    (runUnit ⟨"slow", "sleep 5"⟩ ⟨false, false, true, true, true, true, "", ""⟩).2 =
      [Event.sleep 1000, Event.spawned ("sleep 5"), Event.killedOnDrop ("sleep 5"),
       Event.printed ("Running task: \"slow\""), Event.spawned ("sleep 5"),
       Event.killedOnDrop ("sleep 5"), Event.printed ("Task cancelled slow")] := by
  constructor
  · rfl
  · rfl

/-- C4 amended: cancellation is cooperative in that no further executor
invocation is attempted once it resolves (exactly two `spawned` events,
both before the race is decided), but an in-flight subshell is not left
to run — when the cancelled branch wins the race mid-flight, the dropped
`output()` future kills the second subshell because `kill_on_drop(true)`
is set, as the `killedOnDrop` event after the second `spawned` shows. -/
theorem claim_C4_amended (t : Task) (env : UnitEnv)
    (h1 : env.spawn1Ok = true) (h2 : env.spawn2Ok = true)
    (hp : env.preCancelled = false) (hc : env.cancelBeforeDone = true) :
    (runUnit t env).1 = some Outcome.Cancelled ∧
    (runUnit t env).2 =
      [Event.sleep 1000, Event.spawned t.cmd, Event.killedOnDrop t.cmd,
       Event.printed ("Running task: \"" ++ t.name ++ "\""),
       Event.spawned t.cmd, Event.killedOnDrop t.cmd,
       Event.printed ("Task cancelled " ++ t.name)] ∧
    shellInvocations (runUnit t env).2 = 2 := by
  refine ⟨?_, ?_, ?_⟩ <;>
    simp [runUnit, shellInvocations, Event.isSpawned, h1, h2, hp, hc]

/-- Instantiation of the amended C4 on a concrete mid-flight cancellation. -/
theorem claim_C4_amended_witness :
    (runUnit ⟨"slow", "sleep 99"⟩ ⟨false, false, true, true, true, true, "", ""⟩).1 =
      some Outcome.Cancelled :=
  (claim_C4_amended ⟨"slow", "sleep 99"⟩ ⟨false, false, true, true, true, true, "", ""⟩
    rfl rfl rfl rfl).1

/-- C5: in a batch containing a failing task `j` (non-zero exit, command
runs to completion), task `j`'s result is recorded locally as `Failed`;
every sibling's result is unchanged when task `j`'s environment alone
changes (unit results are independent); a unit never performs a `cancel`
operation on the shared token; and the batch still joins all `N` units,
never returning early. -/
theorem claim_C5 (tasks : List Task) (benv benv2 : Nat → UnitEnv) (j : Nat) (tj : Task)
    (hj : tasks[j]? = some tj)
    (hp : (benv j).preCancelled = false) (hc : (benv j).cancelBeforeDone = false)
    (h1 : (benv j).spawn1Ok = true) (h2 : (benv j).spawn2Ok = true)
    (hf : (benv j).exitSuccess = false)
    (hagree : ∀ i, i ≠ j → benv i = benv2 i) :
    Option.map Prod.fst ((InternalRunner.run_all ⟨some tasks, none⟩ benv)[j]?) =
      some (some (Outcome.Failed (benv j).stderr)) ∧
    (∀ i, i ≠ j →
      (InternalRunner.run_all ⟨some tasks, none⟩ benv)[i]? =
        (InternalRunner.run_all ⟨some tasks, none⟩ benv2)[i]?) ∧
    TokenOp.cancel ∉ unitTokenOps ∧
    (InternalRunner.run_all ⟨some tasks, none⟩ benv).length = tasks.length := by
  refine ⟨?_, ?_, by decide, joinAll_length tasks benv⟩
  · show Option.map Prod.fst ((joinAll tasks benv)[j]?) = _
    rw [joinAll_getElem?, hj]
    have hout := runUnit_completed tj (benv j) h1 h2 hp hc
    simp [hout, hf]
  · intro i hi
    show (joinAll tasks benv)[i]? = (joinAll tasks benv2)[i]?
    rw [joinAll_getElem?, joinAll_getElem?, hagree i hi]

/-- Instantiation of C5 on the two-task batch of spec Scenario A. -/
theorem claim_C5_witness :
    Option.map Prod.fst
        ((InternalRunner.run_all ⟨some [⟨"a", "true"⟩, ⟨"b", "false"⟩], none⟩
          (fun _ => ⟨false, false, false, true, true, false, "", "err"⟩))[1]?) =
      some (some (Outcome.Failed "err")) :=
  (claim_C5 [⟨"a", "true"⟩, ⟨"b", "false"⟩]
    (fun _ => ⟨false, false, false, true, true, false, "", "err"⟩)
    (fun _ => ⟨false, false, false, true, true, false, "", "err"⟩)
    1 ⟨"b", "false"⟩ rfl rfl rfl rfl rfl rfl (fun _ _ => rfl)).1

/-- C6 as stated is false: when the subshell itself fails to start, the
unit hits `.expect` and panics, producing no outcome at all (`none`
here), not a `Failed` outcome. -/
theorem claim_C6_counterexample :
    (runUnit ⟨"t", "boom"⟩ ⟨false, false, false, false, true, false, "", ""⟩).1 = none := by
  rfl

/-- C6 amended: a task whose command string is empty or invalid is still
attempted — the string is handed verbatim to `sh -c` — and a non-zero
exit becomes that task's local `Failed` outcome, which never aborts the
batch (the join still returns one result per task, even for panicking
units); but when the subshell itself fails to start, the unit panics via
`.expect` and produces no outcome instead of a `Failed` one. -/
theorem claim_C6_amended (t : Task) (env : UnitEnv)
    (h1 : env.spawn1Ok = true) (h2 : env.spawn2Ok = true)
    (hp : env.preCancelled = false) (hc : env.cancelBeforeDone = false)
    (hf : env.exitSuccess = false) :
    (runUnit t env).1 = some (Outcome.Failed env.stderr) ∧
    Event.spawned t.cmd ∈ (runUnit t env).2 ∧
    (∀ (tasks : List Task) (benv : Nat → UnitEnv),
      (InternalRunner.run_all ⟨some tasks, none⟩ benv).length = tasks.length) := by
  refine ⟨?_, ?_, fun tasks benv => joinAll_length tasks benv⟩ <;>
    simp [runUnit, h1, h2, hp, hc, hf]

/-- Instantiation of the amended C6 on an empty command string. -/
theorem claim_C6_amended_witness :
    (runUnit ⟨"e", ""⟩ ⟨false, false, false, true, true, false, "", "err"⟩).1 =
      some (Outcome.Failed "err") :=
  (claim_C6_amended ⟨"e", ""⟩ ⟨false, false, false, true, true, false, "", "err"⟩
    rfl rfl rfl rfl rfl).1

/-- C7: when the configuration file is missing, unreadable, or fails to
parse (`Runner::init` fails), `main` takes no further action — the action
trace is empty, so no batch is attempted and no task executes — and the
process exits with status 0; and this is the only error that aborts the
program: for every load result, subcommand, and scheduling environment the
process exit status is 0 (per-task failures never abort the run). -/
theorem claim_C7 :
    (∀ (cli : Option Commands) (env : Nat → UnitEnv),
      mainModel none cli env = ([], 0) ∧
      batchAttempted (mainModel none cli env).1 = false) ∧
    (∀ (loaded : Option Runner) (cli : Option Commands) (env : Nat → UnitEnv),
      (mainModel loaded cli env).2 = 0) := by
  constructor
  · intro cli env
    exact ⟨rfl, rfl⟩
  · intro loaded cli env
    cases loaded with
    | none => rfl
    | some r =>
      cases cli with
      | none => rfl
      | some c => cases c <;> rfl

/-- C8: executing a batch over an absent or empty task group is valid and
completes immediately with zero outcomes — no unit is spawned
(`spawnAll [] = []`) and no executor invocation occurs, the result list
being empty. -/
theorem claim_C8 :
    (∀ env : Nat → UnitEnv, InternalRunner.run_all ⟨none, none⟩ env = []) ∧
    (∀ env : Nat → UnitEnv, InternalRunner.run_all ⟨some [], none⟩ env = []) ∧
    (∀ env : Nat → UnitEnv, InternalRunner.build_all ⟨none, none⟩ env = []) ∧
    (∀ env : Nat → UnitEnv, InternalRunner.build_all ⟨none, some []⟩ env = []) ∧
    spawnAll [] = [] :=
  ⟨fun _ => rfl, fun _ => rfl, fun _ => rfl, fun _ => rfl, rfl⟩

/-- Every terminal outcome is a state of the unit machine reached as
`Pending → Running → Done`. -/
theorem unitReaches (o : Outcome) :
    Relation.ReflTransGen UnitStep UnitState.Pending (UnitState.Done o) := by
  refine Relation.ReflTransGen.head UnitStep.start (Relation.ReflTransGen.single ?_)
  cases o with
  | Succeeded out => exact UnitStep.succeed out
  | Failed err => exact UnitStep.fail err
  | Cancelled => exact UnitStep.cancel

/-- A unit whose subshell starts (neither `.expect` fires) produces a
terminal outcome, whatever the schedule and exit status. -/
theorem runUnit_isSome (t : Task) (env : UnitEnv)
    (h1 : env.spawn1Ok = true) (h2 : env.spawn2Ok = true) :
    ∃ o, (runUnit t env).1 = some o := by
  cases hp : env.preCancelled <;> cases hq : env.innerPolledFirst <;>
    cases hc : env.cancelBeforeDone <;> cases hE : env.exitSuccess <;>
      simp [runUnit, h1, h2, hp, hq, hc, hE]

/-- C9 as stated is false: a unit whose subshell fails to start panics
via `.expect` and produces zero terminal outcomes — in this one-task
batch the join still returns the task's result slot, but its outcome is
`none`, so no `Succeeded`/`Failed`/`Cancelled` outcome is ever produced
for that task in the batch. -/
theorem claim_C9_counterexample :
    Option.map Prod.fst
        ((InternalRunner.run_all ⟨some [⟨"p", "boom"⟩], none⟩
          (fun _ => ⟨false, false, false, false, true, false, "", ""⟩))[0]?) =
      some none := by
  rfl

/-- C9 amended: each batch joins exactly one result slot per task (the
joined list has length N) and terminal outcomes are absorbing — the
per-unit state machine has no transition out of a `Done` state; every
unit whose subshell starts produces exactly one terminal outcome, a
state reached as `Pending → Running → Done`, and the corresponding batch
slot holds that single outcome; a unit whose subshell fails to start
panics and produces no outcome. -/
theorem claim_C9_amended :
    (∀ (tasks : List Task) (benv : Nat → UnitEnv),
      (InternalRunner.run_all ⟨some tasks, none⟩ benv).length = tasks.length) ∧
    (∀ (o : Outcome) (s : UnitState), ¬ UnitStep (UnitState.Done o) s) ∧
    (∀ (t : Task) (env : UnitEnv), env.spawn1Ok = true → env.spawn2Ok = true →
      ∃ o, (runUnit t env).1 = some o ∧
        Relation.ReflTransGen UnitStep UnitState.Pending (UnitState.Done o)) ∧
    (∀ (tasks : List Task) (benv : Nat → UnitEnv) (i : Nat) (t : Task),
      tasks[i]? = some t → (benv i).spawn1Ok = true → (benv i).spawn2Ok = true →
      ∃ o, Option.map Prod.fst ((InternalRunner.run_all ⟨some tasks, none⟩ benv)[i]?) =
        some (some o)) := by
  refine ⟨fun tasks benv => joinAll_length tasks benv, ?_, ?_, ?_⟩
  · intro o s h
    cases h
  · intro t env h1 h2
    obtain ⟨o, ho⟩ := runUnit_isSome t env h1 h2
    exact ⟨o, ho, unitReaches o⟩
  · intro tasks benv i t ht h1 h2
    obtain ⟨o, ho⟩ := runUnit_isSome t (benv i) h1 h2
    refine ⟨o, ?_⟩
    show Option.map Prod.fst ((joinAll tasks benv)[i]?) = some (some o)
    rw [joinAll_getElem?, ht]
    simp [ho]

/-- Instantiation of the amended C9: a concrete unit whose subshell
starts produces exactly one terminal outcome, reachable in the unit
state machine. -/
theorem claim_C9_amended_witness :
    ∃ o, (runUnit ⟨"w", "true"⟩ ⟨false, false, false, true, true, true, "ok", ""⟩).1 =
        some o ∧
      Relation.ReflTransGen UnitStep UnitState.Pending (UnitState.Done o) :=
  claim_C9_amended.2.2.1 ⟨"w", "true"⟩ ⟨false, false, false, true, true, true, "ok", ""⟩
    rfl rfl

/-- C10: every unit's trace begins with the fixed 1000 ms sleep, and no
`spawned` event — no executor invocation — occurs at position 0 of the
trace, so none starts before that sleep completes; moreover, if the
cancellation signal is already set when the race begins (and the subshell
can start at all, so no `.expect` panic preempts the select), the unit's
outcome is `Cancelled`. -/
theorem claim_C10 (t : Task) (env : UnitEnv) :
    (runUnit t env).2.head? = some (Event.sleep 1000) ∧
    (∀ i cmd, ((runUnit t env).2)[i]? = some (Event.spawned cmd) → 0 < i) ∧
    (env.preCancelled = true → env.spawn1Ok = true → env.spawn2Ok = true →
      (runUnit t env).1 = some Outcome.Cancelled) := by
  have hhead : (runUnit t env).2.head? = some (Event.sleep 1000) := by
    cases hp : env.preCancelled <;> cases hq : env.innerPolledFirst <;>
      cases h1 : env.spawn1Ok <;> cases h2 : env.spawn2Ok <;>
        cases hc : env.cancelBeforeDone <;> cases hE : env.exitSuccess <;>
          simp [runUnit, hp, hq, h1, h2, hc, hE]
  refine ⟨hhead, ?_, ?_⟩
  · intro i cmd h
    cases i with
    | zero =>
      exfalso
      cases hl : (runUnit t env).2 with
      | nil =>
        rw [hl] at hhead
        exact Option.noConfusion hhead
      | cons a l =>
        rw [hl] at hhead h
        simp only [List.head?_cons, Option.some.injEq] at hhead
        simp only [List.getElem?_cons_zero, Option.some.injEq] at h
        rw [hhead] at h
        exact Event.noConfusion h
    | succ n => exact Nat.succ_pos n
  · intro hp h1 h2
    exact runUnit_cancelled t env h1 h2 (Or.inl hp)

/-- Instantiation of C10 on a pre-cancelled unit whose inner branch is
polled first. -/
theorem claim_C10_witness :
    (runUnit ⟨"c", "true"⟩ ⟨true, true, false, true, true, true, "", ""⟩).1 =
      some Outcome.Cancelled :=
  (claim_C10 ⟨"c", "true"⟩ ⟨true, true, false, true, true, true, "", ""⟩).2.2 rfl rfl rfl

end RunnerModel
